import Mathlib

/-!
Shallow embedding of `bot.py` (onlive1337/yt_tt_downloader): a chat bot that
receives a media URL, offers download profiles (video high/low quality,
audio-only), resolves the chosen profile to a yt-dlp configuration, runs the
download, validates the resulting artifact and delivers it, reporting
progress and errors back into the chat.

External effects (the chat transport, the extraction engine, the file
system) are modelled as explicit inputs in a `World` record; the handlers
become pure functions from the world to the ordered list of
notification-sink calls they perform.  Per the interface contract,
`sendMessage` always succeeds, while `editMessage`, `sendVideo` and
`sendAudio` may fail; those outcomes are part of the `World`.
-/

/-- Python `s.startswith(p)`, used on option tags (`option.startswith("video")`
in `get_ydl_opts` and `send_file`). -/
def startswith (s p : String) : Bool :=
  p.data.isPrefixOf s.data

/-- One post-processor dictionary from `get_ydl_opts` in `bot.py`.  Fields
mirror the dict keys used by the source (including the source's spelling
`preferedformat`); absent keys are `none`. -/
structure Postprocessor where
  key : String
  preferedformat : Option String
  preferredcodec : Option String
  preferredquality : Option String
deriving DecidableEq

/-- The yt-dlp options dictionary built by `get_ydl_opts` in `bot.py`:
`outtmpl`, `restrictfilenames`, and the optional `format` selector and
`postprocessors` list added per option.  The `progress_hooks` entry is
modelled separately by `progress_hook` below (it carries no configuration
data beyond the chat/message identifiers). -/
structure YdlOpts where
  outtmpl : String
  restrictfilenames : Bool
  format : Option String
  postprocessors : List Postprocessor
deriving DecidableEq

/-- `get_ydl_opts(option, chat_id, message_id)` from `bot.py` lines 96-120,
with the process-wide `FFMPEG_AVAILABLE` flag passed explicitly.  Options
starting with "video" get a best/worst combined format selector and an MP4
convertor post-processor; option "audio" requires ffmpeg and gets a
best-audio selector with an MP3 extraction post-processor, and raises when
ffmpeg is unavailable; any other option returns the bare base options. -/
def get_ydl_opts (option : String) (ffmpeg : Bool) : Except String YdlOpts :=
  let base : YdlOpts := ⟨"%(title)s.%(ext)s", true, none, []⟩
  if startswith option "video" then
    Except.ok ⟨base.outtmpl, base.restrictfilenames,
      some (if option = "video_high" then "bestvideo+bestaudio/best"
            else "worstvideo+worstaudio/worst"),
      [⟨"FFmpegVideoConvertor", some "mp4", none, none⟩]⟩
  else if option = "audio" then
    if ffmpeg then
      Except.ok ⟨base.outtmpl, base.restrictfilenames, some "bestaudio/best",
        [⟨"FFmpegExtractAudio", none, some "mp3", some "192"⟩]⟩
    else
      Except.error "Опция \u0027Только аудио\u0027 недоступна без FFmpeg."
  else
    Except.ok base

/-- The expected output file name derived in `download_file` (lines 127-131):
`<title>.mp3` when the first post-processor is `FFmpegExtractAudio`
(the truthiness test `ydl_opts.get('postprocessors')` means a non-empty
list), `<title>.mp4` otherwise. -/
def derived_output_name (title : String) (opts : YdlOpts) : String :=
  match opts.postprocessors with
  | p :: _ => if p.key = "FFmpegExtractAudio" then title ++ ".mp3" else title ++ ".mp4"
  | [] => title ++ ".mp4"

/-- The environment of one callback request: the startup ffmpeg probe, the
extraction engine's outcome for this URL (`Except.ok title` on success,
`Except.error reason` on failure), the file system observed after
extraction, and the notification-sink outcomes for the fallible calls
(`sendVideo`/`sendAudio` delivery, and the final status-message edit);
`none` means the call succeeds, `some reason` that it fails with that
reason string. -/
structure World where
  ffmpeg : Bool
  engine : Except String String
  pathExists : String → Bool
  fileSize : String → Nat
  deliveryError : Option String
  editError : Option String

/-- `download_file(url, ydl_opts)` from `bot.py` lines 122-146 as a function
of the world: propagate an engine failure, derive the expected file name,
raise if the file does not exist, raise if its size is zero, otherwise
return the file name. -/
def download_file (w : World) (opts : YdlOpts) : Except String String :=
  match w.engine with
  | Except.error e => Except.error e
  | Except.ok title =>
    let downloaded_file := derived_output_name title opts
    if w.pathExists downloaded_file = false then
      Except.error ("Файл не был скачан или имеет неожиданное имя: " ++ downloaded_file)
    else if w.fileSize downloaded_file = 0 then
      Except.error "Скачанный файл пуст"
    else
      Except.ok downloaded_file

/-- The body of the `try` block of `callback_query_handler` up to obtaining
the downloaded file: resolve the options, then run the download.  Either
step's exception propagates. -/
def runJob (w : World) (option : String) : Except String String :=
  match get_ydl_opts option w.ffmpeg with
  | Except.error e => Except.error e
  | Except.ok opts => download_file w opts

/-- The texts sent through the notification sink by the coordinator, tagged
by their construction site in `bot.py`; `Msg.text` below recovers the exact
source string. -/
inductive Msg
  | starting
  | downloadError (reason : String)
  | deliveryError (reason : String)
  | completed
deriving DecidableEq

/-- The literal message text each `Msg` stands for, as written in `bot.py`. -/
def Msg.text : Msg → String
  | Msg.starting => "Начинаю загрузку..."
  | Msg.downloadError reason => "Произошла ошибка при скачивании: " ++ reason
  | Msg.deliveryError reason => "Произошла ошибка при отправке файла: " ++ reason
  | Msg.completed => "Загрузка завершена!"

/-- One notification-sink call made by the coordinator, in order:
`sendMessage` (always succeeds), an `editMessage` attempt with its outcome,
a `sendVideo`/`sendAudio` delivery attempt with its outcome, or an
`os.remove` of a local file. -/
inductive Ev
  | sendMessage (m : Msg)
  | editMessage (m : Msg) (ok : Bool)
  | sendVideo (ok : Bool)
  | sendAudio (ok : Bool)
  | removeFile (path : String)
deriving DecidableEq

/-- `send_file(chat_id, file_path, option)` from `bot.py` lines 148-158 as
the list of sink calls it performs: a `send_video` for options starting
with "video", otherwise a `send_audio`; on delivery failure the exception
is caught and an error message is sent instead of propagating, so the
function always returns normally. -/
def send_file (w : World) (option : String) : List Ev :=
  match w.deliveryError with
  | none =>
    [if startswith option "video" then Ev.sendVideo true else Ev.sendAudio true]
  | some e =>
    [(if startswith option "video" then Ev.sendVideo false else Ev.sendAudio false),
     Ev.sendMessage (Msg.deliveryError e)]

/-- Python `data.split(':', 1)` followed by unpacking into two variables:
`some (before, after)` splits at the first colon, `none` means the
unpacking raises `ValueError` because the payload has no colon. -/
def splitFirstColon : List Char → Option (List Char × List Char)
  | [] => none
  | c :: rest =>
    if c = ':' then some ([], rest)
    else
      match splitFirstColon rest with
      | some (pre, post) => some (c :: pre, post)
      | none => none

/-- The callback payload built by `handle_url` (lines 64-71):
`f"{option}:{url}"`. -/
def encodeCallbackData (tag url : List Char) : List Char :=
  tag ++ ':' :: url

/-- `callback_query_handler(callback_query)` from `bot.py` lines 78-94 as
the ordered list of sink calls performed for one request.  `none` means the
payload unpacking on line 80 raised before any sink call.  Otherwise: the
initial "starting" message; then, inside the `try` block, either the job
fails and the `except` clause sends one error message carrying the reason,
or the job succeeds and the handler delivers via `send_file`, removes the
file, and edits the status message to "completed" — a failed final edit is
caught by the same `except` clause, which then sends an error message. -/
def callback_query_handler (w : World) (data : List Char) : Option (List Ev) :=
  match splitFirstColon data with
  | none => none
  | some (optChars, _url) =>
    let option := String.mk optChars
    some (Ev.sendMessage Msg.starting ::
      match runJob w option with
      | Except.error e => [Ev.sendMessage (Msg.downloadError e)]
      | Except.ok file =>
        send_file w option ++
        Ev.removeFile file ::
        match w.editError with
        | none => [Ev.editMessage Msg.completed true]
        | some e => [Ev.editMessage Msg.completed false,
                     Ev.sendMessage (Msg.downloadError e)])

/-- `create_progress_bar(percent, width=20)` from `bot.py` lines 34-37,
restricted to the bar cells (the surrounding brackets and the numeric
percent/speed/eta text are presentation around the same cell list):
`filled_length = int(width * percent // 100)` filled cells followed by
`width - filled_length` unfilled ones, with Python's negative string
repetition yielding the empty string. -/
def create_progress_bar (percent : ℚ) (width : ℕ) : List Char :=
  let filled_length : ℤ := Int.floor ((width : ℚ) * percent / 100)
  List.replicate filled_length.toNat '█' ++
    List.replicate ((width : ℤ) - filled_length).toNat '░'

/-- One event passed by the extraction engine to the progress hook
(`d` in `progress_hook`, lines 39-50): its `status` field, the numeric
percent parsed from `_percent_str` (line 41), and the `_speed_str` and
`_eta_str` fields. -/
structure ProgressSample where
  status : String
  percent : ℚ
  speed_str : String
  eta_str : String

/-- What one invocation of the progress hook does to the notification sink:
nothing, or one `edit_message_text` attempt carrying the rendered progress
bar together with the speed and eta strings, with the attempt's outcome. -/
inductive HookEffect
  | noUpdate
  | editAttempt (bar : List Char) (speed : String) (eta : String) (ok : Bool)
deriving DecidableEq

/-- `progress_hook(d, chat_id, message_id)` from `bot.py` lines 39-50 as a
function of the sample and of the sink's outcome for the edit call
(`Except.ok ()` if the edit succeeds, `Except.error reason` if it raises).
Non-"downloading" statuses do nothing; for a "downloading" sample the hook
renders the bar and attempts the edit inside `try`, logging and swallowing
a failure, so the hook itself always returns normally (`Except.ok`). -/
def progress_hook (d : ProgressSample) (editResult : Except String Unit) :
    Except String HookEffect :=
  if d.status = "downloading" then
    let bar := create_progress_bar d.percent 20
    match editResult with
    | Except.ok _ => Except.ok (HookEffect.editAttempt bar d.speed_str d.eta_str true)
    | Except.error _ => Except.ok (HookEffect.editAttempt bar d.speed_str d.eta_str false)
  else
    Except.ok HookEffect.noUpdate

/-- Whether a hook invocation finished without propagating an exception. -/
def hookReturnsNormally : Except String HookEffect → Bool
  | Except.ok _ => true
  | Except.error _ => false

/-- Whether a hook invocation requested a status-message edit. -/
def requestsEdit : Except String HookEffect → Bool
  | Except.ok (HookEffect.editAttempt _ _ _ _) => true
  | _ => false

/-- Terminal error messages of the coordinator: the download-error message
of the `except` clause (line 92) and the delivery-error message of
`send_file` (line 158). -/
def isTerminalErrorMsg : Ev → Bool
  | Ev.sendMessage (Msg.downloadError _) => true
  | Ev.sendMessage (Msg.deliveryError _) => true
  | _ => false

/-- A successful edit of the status message to the "completed" text. -/
def isCompletedEditOk : Ev → Bool
  | Ev.editMessage Msg.completed true => true
  | _ => false

/-- A delivery call (`send_video` or `send_audio`), regardless of outcome. -/
def isDeliveryCall : Ev → Bool
  | Ev.sendVideo _ => true
  | Ev.sendAudio _ => true
  | _ => false

/-- An `os.remove` of a local file. -/
def isRemoveEv : Ev → Bool
  | Ev.removeFile _ => true
  | _ => false

/-- How many terminal messages the user receives in a trace: error messages
plus successful "completed" edits. -/
def terminalMessageCount (evs : List Ev) : Nat :=
  (evs.filter (fun e => isTerminalErrorMsg e || isCompletedEditOk e)).length

/-- A request whose extraction and validation succeed (title `t`, file
present with 512000 bytes) but whose delivery call fails with reason
"boom"; the final status edit succeeds. -/
def deliveryFailWorld : World :=
  ⟨true, Except.ok "t", fun _ => true, fun _ => 512000, some "boom", none⟩

/-- A request whose extraction succeeds and whose derived artifact exists
with byte size zero. -/
def emptyFileWorld : World :=
  ⟨true, Except.ok "t", fun _ => true, fun _ => 0, none, none⟩

/-- A fully successful request: extraction, validation, delivery and the
final edit all succeed. -/
def okWorld : World :=
  ⟨true, Except.ok "t", fun _ => true, fun _ => 512000, none, none⟩

/-- A request whose extraction succeeds but where no file exists at the
derived output name. -/
def missingFileWorld : World :=
  ⟨true, Except.ok "t", fun _ => false, fun _ => 0, none, none⟩

/-- A payload without a colon makes the split come up empty. -/
theorem splitFirstColon_no_colon (s : List Char) (h : ':' ∉ s) :
    splitFirstColon s = none := by
  induction s with
  | nil => rfl
  | cons c rest ih =>
    have hc : ¬ c = ':' := fun hc => h (by simp [hc])
    have hr : ':' ∉ rest := fun hm => h (List.mem_cons_of_mem _ hm)
    simp [splitFirstColon, hc, ih hr]

/-- Splitting `tag ++ ":" ++ url` at the first colon recovers `(tag, url)`
whenever the tag itself contains no colon, whatever colons `url` holds. -/
theorem splitFirstColon_append (tag url : List Char) (h : ':' ∉ tag) :
    splitFirstColon (tag ++ ':' :: url) = some (tag, url) := by
  induction tag with
  | nil => simp [splitFirstColon]
  | cons c rest ih =>
    have hc : ¬ c = ':' := fun hc => h (by simp [hc])
    have hr : ':' ∉ rest := fun hm => h (List.mem_cons_of_mem _ hm)
    simp [splitFirstColon, hc, ih hr]

/-- C3: for every profile and every ffmpeg availability, the option
resolver returns a configuration matching the profile's classification —
`video_high` the best video+audio selector with MP4 normalization,
`video_low` the worst video+audio selector with MP4 normalization,
`audio` the best-audio selector with MP3 extraction — except `audio`
without ffmpeg, which fails instead of degrading. -/
theorem C3_option_resolver : ∀ ffmpeg : Bool,
    get_ydl_opts "video_high" ffmpeg =
      Except.ok ⟨"%(title)s.%(ext)s", true, some "bestvideo+bestaudio/best",
        [⟨"FFmpegVideoConvertor", some "mp4", none, none⟩]⟩ ∧
    get_ydl_opts "video_low" ffmpeg =
      Except.ok ⟨"%(title)s.%(ext)s", true, some "worstvideo+worstaudio/worst",
        [⟨"FFmpegVideoConvertor", some "mp4", none, none⟩]⟩ ∧
    get_ydl_opts "audio" true =
      Except.ok ⟨"%(title)s.%(ext)s", true, some "bestaudio/best",
        [⟨"FFmpegExtractAudio", none, some "mp3", some "192"⟩]⟩ ∧
    get_ydl_opts "audio" false =
      Except.error "Опция \u0027Только аудио\u0027 недоступна без FFmpeg." := by
  intro ffmpeg
  cases ffmpeg <;> exact ⟨rfl, rfl, rfl, rfl⟩

/-- C5: for each of the three profile tags and every URL (colons in the URL
included), encoding the pair as `tag:url` and splitting at the first colon
yields the original pair. -/
theorem C5_payload_roundtrip : ∀ url : List Char,
    splitFirstColon (encodeCallbackData "video_high".data url) =
      some ("video_high".data, url) ∧
    splitFirstColon (encodeCallbackData "video_low".data url) =
      some ("video_low".data, url) ∧
    splitFirstColon (encodeCallbackData "audio".data url) =
      some ("audio".data, url) := by
  intro url
  exact ⟨splitFirstColon_append _ _ (by decide),
         splitFirstColon_append _ _ (by decide),
         splitFirstColon_append _ _ (by decide)⟩

/-- C7: the progress hook requests a status-message edit exactly for
samples with status "downloading", and it always returns normally — a
failing edit is swallowed and never propagates into the extraction job. -/
theorem C7_progress_hook_policy :
    ∀ (d : ProgressSample) (er : Except String Unit),
    hookReturnsNormally (progress_hook d er) = true ∧
    (requestsEdit (progress_hook d er) = true ↔ d.status = "downloading") := by
  intro d er
  unfold progress_hook
  by_cases h : d.status = "downloading"
  · cases er <;> simp [h, hookReturnsNormally, requestsEdit]
  · simp [h, hookReturnsNormally, requestsEdit]

/-- C9: a callback payload without a colon makes the unpacking raise before
the initial status message is sent and before any job starts: the handler
performs no sink call at all, so no user-facing error message appears. -/
theorem C9_colonless_payload (w : World) (data : List Char) (h : ':' ∉ data) :
    callback_query_handler w data = none := by
  unfold callback_query_handler
  rw [splitFirstColon_no_colon data h]

/-- Witness for C9 at the concrete colon-free payload "video_high". -/
theorem C9_colonless_payload_witness :
    ':' ∉ "video_high".data ∧
    callback_query_handler okWorld "video_high".data = none :=
  ⟨by decide, C9_colonless_payload okWorld "video_high".data (by decide)⟩

/-- C10: an option tag that does not start with "video" and is not "audio"
is not rejected: the resolver returns the bare base configuration with no
format selector and no post-processors. -/
theorem C10_unknown_option (option : String) (ffmpeg : Bool)
    (h1 : startswith option "video" = false) (h2 : option ≠ "audio") :
    get_ydl_opts option ffmpeg = Except.ok ⟨"%(title)s.%(ext)s", true, none, []⟩ := by
  unfold get_ydl_opts
  simp [h1, h2]

/-- Witness for C10 at the concrete unknown tag "document". -/
theorem C10_unknown_option_witness :
    startswith "document" "video" = false ∧ "document" ≠ "audio" ∧
    get_ydl_opts "document" true = Except.ok ⟨"%(title)s.%(ext)s", true, none, []⟩ :=
  ⟨by decide, by decide, C10_unknown_option "document" true (by decide) (by decide)⟩

/-- C4: for every percent value between 0 and 100 the rendered bar has
exactly 20 cells, the number of filled cells is `floor(20 * percent / 100)`,
percent 0 gives a fully unfilled bar and percent 100 a fully filled one. -/
theorem C4_progress_bar (p : ℚ) (h0 : 0 ≤ p) (h1 : p ≤ 100) :
    (create_progress_bar p 20).length = 20 ∧
    (create_progress_bar p 20).count '█' = (Int.floor ((20:ℚ) * p / 100)).toNat ∧
    (p = 0 → create_progress_bar p 20 = List.replicate 20 '░') ∧
    (p = 100 → create_progress_bar p 20 = List.replicate 20 '█') := by
  have hcast : ((20:ℕ):ℚ) = (20:ℚ) := by norm_num
  have hub : (20:ℚ) * p / 100 ≤ 20 := by linarith
  have hf0 : 0 ≤ Int.floor ((20:ℚ) * p / 100) := Int.floor_nonneg.mpr (by positivity)
  have h20 : Int.floor ((20:ℚ)) = 20 := by norm_num
  have hf20 : Int.floor ((20:ℚ) * p / 100) ≤ 20 := by
    have h2 := Int.floor_le_floor hub
    omega
  refine ⟨?_, ?_, ?_, ?_⟩
  · simp only [create_progress_bar, hcast, List.length_append, List.length_replicate]
    omega
  · simp only [create_progress_bar, hcast, List.count_append, List.count_replicate]
    simp
  · intro hp
    subst hp
    have hz : ((20:ℕ):ℚ) * 0 / 100 = 0 := by norm_num
    simp only [create_progress_bar, hz, Int.floor_zero]
    simp
  · intro hp
    subst hp
    have hz : Int.floor (((20:ℕ):ℚ) * 100 / 100) = 20 := by
      rw [hcast]
      norm_num
    simp only [create_progress_bar, hz]
    simp

/-- Witness for C4 at percent 50: a half-filled 20-cell bar. -/
theorem C4_progress_bar_witness :
    (0:ℚ) ≤ 50 ∧ (50:ℚ) ≤ 100 ∧
    ((create_progress_bar 50 20).length = 20 ∧
     (create_progress_bar 50 20).count '█' = (Int.floor ((20:ℚ) * 50 / 100)).toNat ∧
     ((50:ℚ) = 0 → create_progress_bar 50 20 = List.replicate 20 '░') ∧
     ((50:ℚ) = 100 → create_progress_bar 50 20 = List.replicate 20 '█')) :=
  ⟨by decide, by decide, C4_progress_bar 50 (by decide) (by decide)⟩

/-- Once the payload splits, the handler's trace is the starting message
followed by either the single error message of the `except` clause or the
delivery, removal and final-edit events of the success path. -/
theorem callback_query_handler_eq (w : World) (data opt url : List Char)
    (hsplit : splitFirstColon data = some (opt, url)) :
    callback_query_handler w data =
      some (Ev.sendMessage Msg.starting ::
        match runJob w (String.mk opt) with
        | Except.error e => [Ev.sendMessage (Msg.downloadError e)]
        | Except.ok file =>
          send_file w (String.mk opt) ++
          Ev.removeFile file ::
          match w.editError with
          | none => [Ev.editMessage Msg.completed true]
          | some e => [Ev.editMessage Msg.completed false,
                       Ev.sendMessage (Msg.downloadError e)]) := by
  unfold callback_query_handler
  rw [hsplit]

/-- C6: when the extraction engine succeeds but no file exists at the
derived output name, the request fails with the file-missing error message
(naming the expected file) and no delivery call at all is made. -/
theorem C6_missing_artifact (w : World) (data opt url : List Char)
    (opts : YdlOpts) (title : String)
    (hsplit : splitFirstColon data = some (opt, url))
    (hopts : get_ydl_opts (String.mk opt) w.ffmpeg = Except.ok opts)
    (hengine : w.engine = Except.ok title)
    (hmissing : w.pathExists (derived_output_name title opts) = false) :
    callback_query_handler w data =
      some [Ev.sendMessage Msg.starting,
            Ev.sendMessage (Msg.downloadError
              ("Файл не был скачан или имеет неожиданное имя: " ++
               derived_output_name title opts))] ∧
    ((callback_query_handler w data).getD []).any isDeliveryCall = false := by
  have hrun : runJob w (String.mk opt) =
      Except.error ("Файл не был скачан или имеет неожиданное имя: " ++
        derived_output_name title opts) := by
    unfold runJob
    rw [hopts]
    unfold download_file
    rw [hengine]
    simp [hmissing]
  have heq := callback_query_handler_eq w data opt url hsplit
  rw [hrun] at heq
  rw [heq]
  exact ⟨rfl, by simp [isDeliveryCall]⟩

/-- Witness for C6: a video-high request whose engine reports title "t" but
where no file exists on disk. -/
theorem C6_missing_artifact_witness :
    splitFirstColon ("video_high:u".data) = some ("video_high".data, "u".data) ∧
    get_ydl_opts (String.mk "video_high".data) missingFileWorld.ffmpeg =
      Except.ok ⟨"%(title)s.%(ext)s", true, some "bestvideo+bestaudio/best",
        [⟨"FFmpegVideoConvertor", some "mp4", none, none⟩]⟩ ∧
    missingFileWorld.engine = Except.ok "t" ∧
    (callback_query_handler missingFileWorld ("video_high:u".data) =
      some [Ev.sendMessage Msg.starting,
            Ev.sendMessage (Msg.downloadError
              ("Файл не был скачан или имеет неожиданное имя: " ++
               derived_output_name "t"
                 ⟨"%(title)s.%(ext)s", true, some "bestvideo+bestaudio/best",
                  [⟨"FFmpegVideoConvertor", some "mp4", none, none⟩]⟩))] ∧
     ((callback_query_handler missingFileWorld ("video_high:u".data)).getD []).any
        isDeliveryCall = false) :=
  ⟨rfl, rfl, rfl,
   C6_missing_artifact missingFileWorld ("video_high:u".data) ("video_high".data)
     ("u".data) _ "t" rfl rfl rfl rfl⟩

/-- C8: whenever the job succeeds, the coordinator removes the temporary
artifact file — whatever the outcome of the delivery call and of the final
status edit, since `send_file` swallows its own failures. -/
theorem C8_cleanup_unconditional (w : World) (data opt url : List Char) (file : String)
    (hsplit : splitFirstColon data = some (opt, url))
    (hrun : runJob w (String.mk opt) = Except.ok file) :
    Ev.removeFile file ∈ (callback_query_handler w data).getD [] := by
  have heq := callback_query_handler_eq w data opt url hsplit
  rw [hrun] at heq
  rw [heq]
  cases hd : w.deliveryError <;> cases he : w.editError <;>
    simp [send_file, hd, he]

/-- Witness for C8: a successful job whose delivery call fails ("boom");
the file is still removed. -/
theorem C8_cleanup_unconditional_witness :
    splitFirstColon ("video_high:u".data) = some ("video_high".data, "u".data) ∧
    runJob deliveryFailWorld (String.mk "video_high".data) = Except.ok "t.mp4" ∧
    Ev.removeFile "t.mp4" ∈
      (callback_query_handler deliveryFailWorld ("video_high:u".data)).getD [] :=
  ⟨rfl, rfl,
   C8_cleanup_unconditional deliveryFailWorld ("video_high:u".data)
     ("video_high".data) ("u".data) "t.mp4" rfl rfl⟩

/-- C1 counterexample: in a request whose extraction and validation succeed
but whose delivery call fails (reason "boom"), the user receives both a
terminal error message (sent by `send_file`) and a successful "completed"
status edit — refuting "never both an error message and a completed edit
for the same request". -/
theorem C1_counterexample :
    (((callback_query_handler deliveryFailWorld
        ("video_high:u".data)).getD []).any isTerminalErrorMsg) = true ∧
    (((callback_query_handler deliveryFailWorld
        ("video_high:u".data)).getD []).any isCompletedEditOk) = true :=
  ⟨by decide, by decide⟩

/-- C1 amended: as long as the delivery call does not fail, every request
that reaches the terminal phase produces exactly one terminal message —
either one error message (whose text is the error prefix followed by the
underlying reason string) or one successful "completed" edit; only a failed
delivery call produces both an error message and a completed edit. -/
theorem C1_amended_single_terminal (w : World) (data : List Char) (evs : List Ev)
    (reason : String)
    (hok : w.deliveryError = none)
    (h : callback_query_handler w data = some evs) :
    terminalMessageCount evs = 1 ∧
    (Msg.downloadError reason).text =
      "Произошла ошибка при скачивании: " ++ reason := by
  refine ⟨?_, rfl⟩
  unfold callback_query_handler at h
  cases hs : splitFirstColon data with
  | none => rw [hs] at h; exact absurd h (by simp)
  | some pair =>
    obtain ⟨opt, url⟩ := pair
    rw [hs] at h
    injection h with h
    subst h
    cases hr : runJob w (String.mk opt) with
    | error e =>
      simp [terminalMessageCount, isTerminalErrorMsg, isCompletedEditOk]
    | ok file =>
      cases hv : startswith (String.mk opt) "video" <;>
        cases he : w.editError <;>
          simp [terminalMessageCount, send_file, hok, hv, he,
                isTerminalErrorMsg, isCompletedEditOk]

/-- Witness for C1 amended: a fully successful request produces exactly the
one "completed" terminal message. -/
theorem C1_amended_single_terminal_witness :
    okWorld.deliveryError = none ∧
    callback_query_handler okWorld ("video_high:u".data) =
      some [Ev.sendMessage Msg.starting, Ev.sendVideo true,
            Ev.removeFile "t.mp4", Ev.editMessage Msg.completed true] ∧
    (terminalMessageCount
        [Ev.sendMessage Msg.starting, Ev.sendVideo true,
         Ev.removeFile "t.mp4", Ev.editMessage Msg.completed true] = 1 ∧
     (Msg.downloadError "boom").text =
       "Произошла ошибка при скачивании: " ++ "boom") :=
  ⟨rfl, by decide,
   C1_amended_single_terminal okWorld ("video_high:u".data)
     [Ev.sendMessage Msg.starting, Ev.sendVideo true,
      Ev.removeFile "t.mp4", Ev.editMessage Msg.completed true]
     "boom" rfl (by decide)⟩

/-- C2 counterexample: with the derived artifact present at size zero, the
request fails with the empty-file error but performs no `os.remove` at all
— refuting "the zero-byte file is nevertheless removed from disk by
cleanup before the request terminates". -/
theorem C2_counterexample :
    callback_query_handler emptyFileWorld ("video_high:u".data) =
      some [Ev.sendMessage Msg.starting,
            Ev.sendMessage (Msg.downloadError "Скачанный файл пуст")] ∧
    (((callback_query_handler emptyFileWorld
        ("video_high:u".data)).getD []).any isRemoveEv) = false :=
  ⟨by decide, by decide⟩

/-- C2 amended: when the extraction engine succeeds and the derived
artifact exists with byte size zero, the request fails with the empty-file
error, but the zero-byte file is NOT removed: cleanup runs only on the
success path, so no removal happens on this request. -/
theorem C2_empty_artifact_no_cleanup (w : World) (data opt url : List Char)
    (opts : YdlOpts) (title : String)
    (hsplit : splitFirstColon data = some (opt, url))
    (hopts : get_ydl_opts (String.mk opt) w.ffmpeg = Except.ok opts)
    (hengine : w.engine = Except.ok title)
    (hx : w.pathExists (derived_output_name title opts) = true)
    (hz : w.fileSize (derived_output_name title opts) = 0) :
    callback_query_handler w data =
      some [Ev.sendMessage Msg.starting,
            Ev.sendMessage (Msg.downloadError "Скачанный файл пуст")] ∧
    ((callback_query_handler w data).getD []).any isRemoveEv = false := by
  have hrun : runJob w (String.mk opt) = Except.error "Скачанный файл пуст" := by
    unfold runJob
    rw [hopts]
    unfold download_file
    rw [hengine]
    simp [hx, hz]
  have heq := callback_query_handler_eq w data opt url hsplit
  rw [hrun] at heq
  rw [heq]
  exact ⟨rfl, by simp [isRemoveEv]⟩

/-- Witness for C2 amended: the concrete zero-byte request of the
counterexample, via the amended theorem. -/
theorem C2_empty_artifact_no_cleanup_witness :
    splitFirstColon ("video_high:u".data) = some ("video_high".data, "u".data) ∧
    emptyFileWorld.engine = Except.ok "t" ∧
    emptyFileWorld.fileSize
      (derived_output_name "t"
        ⟨"%(title)s.%(ext)s", true, some "bestvideo+bestaudio/best",
         [⟨"FFmpegVideoConvertor", some "mp4", none, none⟩]⟩) = 0 ∧
    (callback_query_handler emptyFileWorld ("video_high:u".data) =
      some [Ev.sendMessage Msg.starting,
            Ev.sendMessage (Msg.downloadError "Скачанный файл пуст")] ∧
     ((callback_query_handler emptyFileWorld ("video_high:u".data)).getD []).any
        isRemoveEv = false) :=
  ⟨rfl, rfl, rfl,
   C2_empty_artifact_no_cleanup emptyFileWorld ("video_high:u".data)
     ("video_high".data) ("u".data) _ "t" rfl rfl rfl rfl rfl⟩
